import Mathlib

/-!
Verification of the HTTP API dispatch layer of the orchestrator repository
(src/go/http/api.go), together with spec-level models of the relocation
planner, regroup engine and recovery bookkeeping that the API surfaces.

Handlers are embedded as pure functions.  Go's `(value, err)` multiple
returns become `α × Option String` pairs; calls into the core packages
(`inst.*`, `logic.*`, `agent.*`) are passed in as oracle functions, and
each invocation of a core operation is recorded in an explicit effect
trace so that "the handler performs no core operation" is a provable
statement.  A Go `r.JSON(200, x)` where `x` is not an `APIResponse`
envelope is embedded as a `structured` reply.
-/

namespace Orchestrator

/-- `inst.InstanceKey`: a `(hostname, port)` pair identifying one server. -/
structure InstanceKey where
  hostname : String
  port : Int
deriving DecidableEq, Repr, Inhabited

/-- `InstanceKey.DisplayString()`: canonical `host:port` rendering. -/
def InstanceKey.displayString (k : InstanceKey) : String :=
  k.hostname ++ ":" ++ toString k.port

/-- Per-instance promotion preference (spec §3 / glossary). -/
inductive PromotionRule where
  | must
  | prefer
  | neutral
  | preferNot
  | mustNot
deriving DecidableEq, Repr, Inhabited

/-- The slice of `inst.Instance` the API layer and the spec-modelled engines
need: identity, upstream pointer, and the election-relevant attributes of
spec §4.F step 2-3 (capability, promotion rule, executed position, server id,
and whether the relocation planner of §4.E can place the replica). -/
structure Instance where
  key : InstanceKey
  upstreamKey : InstanceKey
  promotionRule : PromotionRule := PromotionRule.neutral
  execPos : Int := 0
  serverId : Nat := 0
  canReplicate : Bool := true
  plannerCanPlace : Bool := true
deriving DecidableEq, Repr, Inhabited

/-- `TopologyRecovery` rows (spec §3): a recovery is active while
`EndRecovery` is NULL, i.e. `endRecovery = none`. -/
structure TopologyRecovery where
  id : Nat
  clusterName : String
  endRecovery : Option Nat
  isSuccessful : Bool := false
  acknowledged : Bool := false
deriving DecidableEq, Repr, Inhabited

/-- Go constant `ERROR APIResponseCode = iota` (api.go:42-45). -/
def ERROR : Int := 0

/-- Go constant `OK` (api.go:42-45). -/
def OK : Int := 1

/-- `APIResponseCode.String()` (api.go:51-59): "ERROR" and "OK" for the two
declared constants, "unknown" for any other integer value. -/
def APIResponseCodeString (c : Int) : String :=
  if c = ERROR then "ERROR"
  else if c = OK then "OK"
  else "unknown"

/-- The values handed to `r.JSON` as `Details interface{}` by the handlers
embedded here. -/
inductive Details where
  | noDetails
  | inst (i : Instance)
  | key (k : InstanceKey)
  | count (n : Int)
  | boolVal (b : Bool)
  | recoveries (rs : List TopologyRecovery)
deriving DecidableEq, Repr, Inhabited

/-- `APIResponse` (api.go:62-66). -/
structure APIResponse where
  Code : Int
  Message : String
  Details : Details := Details.noDetails
deriving DecidableEq, Repr, Inhabited

/-- One `r.JSON(200, ...)` reply: either an `APIResponse` envelope or a raw
structured object (an instance, a list, a count, ...). -/
inductive HttpReply where
  | envelope (resp : APIResponse)
  | structured (d : Details)
deriving DecidableEq, Repr, Inhabited

/-- Invocations of core operations performed by a handler, in order. -/
inductive Effect where
  | readInstanceCall (k : InstanceKey)
  | readTopologyInstanceCall (k : InstanceKey)
  | forgetInstanceCall (k : InstanceKey)
  | beginMaintenanceCall (k : InstanceKey) (owner reason : String)
  | startSlaveCall (k : InstanceKey)
  | relocateBelowCall (s t : InstanceKey)
  | regroupSlavesCall (k : InstanceKey)
  | regroupSlavesPseudoGTIDCall (k : InstanceKey)
  | regroupSlavesGTIDCall (k : InstanceKey)
  | killQueryCall (k : InstanceKey) (processId : Int)
  | agentSeedDetailsCall (seedId : Int)
  | readSeedStatesCall (seedId : Int)
  | abortSeedCall (seedId : Int)
  | checkAndRecoverCall (k : InstanceKey) (candidate : Option InstanceKey) (skipProcesses : Bool)
  | acknowledgeRecoveryCall (recoveryId : Int) (userId comment : String)
  | acknowledgeClusterRecoveriesCall (clusterName userId comment : String)
  | acknowledgeInstanceRecoveriesCall (k : InstanceKey) (userId comment : String)
  | readActiveClusterRecoveryCall (clusterName : String)
deriving DecidableEq, Repr, Inhabited

/-- `err.Error()` of a Go error modelled as `Option String`. -/
def errText (e : Option String) : String := e.getD ""

/-- The `{Code: ERROR, Message: "Unauthorized"}` envelope every guarded
handler returns when `isAuthorizedForAction` is false. -/
def unauthorizedReply : HttpReply :=
  HttpReply.envelope { Code := ERROR, Message := "Unauthorized" }

/-- Error envelope carrying a core/parse error message. -/
def errorReply (e : Option String) : HttpReply :=
  HttpReply.envelope { Code := ERROR, Message := errText e }

/-- `HttpAPI.Instance` (api.go:88-101).  Read-only: the handler takes no
authorization input at all; `inst.ReadInstance` returns (instance, found, err)
and the handler errors when `(!found) || (err != nil)`. -/
def instanceHandler (getKey : InstanceKey × Option String)
    (readInstance : InstanceKey → Instance × Bool × Option String) :
    HttpReply × List Effect :=
  match getKey with
  | (_, some e) => (errorReply (some e), [])
  | (instanceKey, none) =>
    match readInstance instanceKey with
    | (_, false, _) =>
      (HttpReply.envelope
          ⟨ERROR, "Cannot read instance: " ++ instanceKey.displayString, Details.noDetails⟩,
        [Effect.readInstanceCall instanceKey])
    | (_, true, some _) =>
      (HttpReply.envelope
          ⟨ERROR, "Cannot read instance: " ++ instanceKey.displayString, Details.noDetails⟩,
        [Effect.readInstanceCall instanceKey])
    | (ins, true, none) =>
      (HttpReply.structured (Details.inst ins), [Effect.readInstanceCall instanceKey])

/-- `HttpAPI.Discover` (api.go:104-122). -/
def discoverHandler (authorized : Bool) (getKey : InstanceKey × Option String)
    (readTopologyInstance : InstanceKey → Instance × Option String) :
    HttpReply × List Effect :=
  if !authorized then (unauthorizedReply, [])
  else
    match getKey with
    | (_, some e) => (errorReply (some e), [])
    | (instanceKey, none) =>
      match readTopologyInstance instanceKey with
      | (_, some e) => (errorReply (some e), [Effect.readTopologyInstanceCall instanceKey])
      | (ins, none) =>
        (HttpReply.envelope
            ⟨OK, "Instance discovered: " ++ ins.key.displayString, Details.inst ins⟩,
          [Effect.readTopologyInstanceCall instanceKey])

/-- `HttpAPI.Forget` (api.go:147-158).  The error of `inst.NewRawInstanceKey`
is discarded (api.go:153); the raw key pointer is then passed to
`inst.ForgetInstance` and dereferenced in the response message.  A `none`
raw key models a nil pointer, and the handler result `none` models the
nil-pointer panic those dereferences would produce. -/
def forgetHandler (authorized : Bool) (rawInstanceKey : Option InstanceKey) :
    Option (HttpReply × List Effect) :=
  if !authorized then some (unauthorizedReply, [])
  else
    match rawInstanceKey with
    | none => none
    | some k =>
      some (HttpReply.envelope
          ⟨OK, "Instance forgotten: " ++ k.displayString, Details.noDetails⟩,
        [Effect.forgetInstanceCall k])

/-- `HttpAPI.BeginMaintenance` (api.go:180-198).  `inst.BeginBoundedMaintenance`
returns a maintenance token and an error; on error the token is surfaced as
`Details`. -/
def beginMaintenanceHandler (authorized : Bool) (getKey : InstanceKey × Option String)
    (owner reason : String)
    (beginMaintenance : InstanceKey → String → String → Int × Option String) :
    HttpReply × List Effect :=
  if !authorized then (unauthorizedReply, [])
  else
    match getKey with
    | (_, some e) => (errorReply (some e), [])
    | (instanceKey, none) =>
      match beginMaintenance instanceKey owner reason with
      | (key, some e) =>
        (HttpReply.envelope ⟨ERROR, errText (some e), Details.count key⟩,
          [Effect.beginMaintenanceCall instanceKey owner reason])
      | (_, none) =>
        (HttpReply.envelope
            ⟨OK, "Maintenance begun: " ++ instanceKey.displayString, Details.noDetails⟩,
          [Effect.beginMaintenanceCall instanceKey owner reason])

/-- `HttpAPI.StartSlave` (api.go:1011-1029). -/
def startSlaveHandler (authorized : Bool) (getKey : InstanceKey × Option String)
    (startSlave : InstanceKey → Instance × Option String) :
    HttpReply × List Effect :=
  if !authorized then (unauthorizedReply, [])
  else
    match getKey with
    | (_, some e) => (errorReply (some e), [])
    | (instanceKey, none) =>
      match startSlave instanceKey with
      | (_, some e) => (errorReply (some e), [Effect.startSlaveCall instanceKey])
      | (ins, none) =>
        (HttpReply.envelope
            ⟨OK, "Slave started: " ++ ins.key.displayString, Details.inst ins⟩,
          [Effect.startSlaveCall instanceKey])

/-- `HttpAPI.RelocateBelow` (api.go:644-667): parse both keys, call
`inst.RelocateBelow`, surface the refreshed instance as `Details` of the OK
envelope. -/
def relocateBelowHandler (authorized : Bool)
    (getKey getBelowKey : InstanceKey × Option String)
    (relocateBelowOp : InstanceKey → InstanceKey → Instance × Option String) :
    HttpReply × List Effect :=
  if !authorized then (unauthorizedReply, [])
  else
    match getKey with
    | (_, some e) => (errorReply (some e), [])
    | (instanceKey, none) =>
      match getBelowKey with
      | (_, some e) => (errorReply (some e), [])
      | (belowKey, none) =>
        match relocateBelowOp instanceKey belowKey with
        | (_, some e) => (errorReply (some e), [Effect.relocateBelowCall instanceKey belowKey])
        | (ins, none) =>
          (HttpReply.envelope
              ⟨OK, "Instance " ++ instanceKey.displayString ++ " relocated below " ++
                belowKey.displayString, Details.inst ins⟩,
            [Effect.relocateBelowCall instanceKey belowKey])

/-- The five values `inst.RegroupSlaves` / `inst.RegroupSlavesPseudoGTID`
return alongside their error (api.go:863, api.go:887). -/
structure RegroupResult where
  lostSlaves : List Instance
  equalSlaves : List Instance
  aheadSlaves : List Instance
  cannotReplicateSlaves : List Instance
  promotedSlave : Instance
deriving DecidableEq, Repr, Inhabited

/-- The four values `inst.RegroupSlavesGTID` returns alongside its error
(api.go:911). -/
structure RegroupGTIDResult where
  lostSlaves : List Instance
  movedSlaves : List Instance
  cannotReplicateSlaves : List Instance
  promotedSlave : Instance
deriving DecidableEq, Repr, Inhabited

/-- The OK message of `RegroupSlaves` and `RegroupSlavesPseudoGTID`
(api.go:870-871, 895-896). -/
def regroupMessage (promoted : Instance) (lost trivial pseudoGtid : Nat) : String :=
  "promoted slave: " ++ promoted.key.displayString ++ ", lost: " ++ toString lost ++
    ", trivial: " ++ toString trivial ++ ", pseudo-gtid: " ++ toString pseudoGtid

/-- The OK message of `RegroupSlavesGTID` (api.go:919-920). -/
def regroupGTIDMessage (promoted : Instance) (lost moved : Nat) : String :=
  "promoted slave: " ++ promoted.key.displayString ++ ", lost: " ++ toString lost ++
    ", moved: " ++ toString moved

/-- `HttpAPI.RegroupSlaves` (api.go:852-872).  Note api.go:864:
`lostSlaves = append(lostSlaves, cannotReplicateSlaves...)` — the
`cannotReplicate` bucket is folded into `lost` before the response is built. -/
def regroupSlavesHandler (authorized : Bool) (getKey : InstanceKey × Option String)
    (regroupOp : InstanceKey → RegroupResult × Option String) :
    HttpReply × List Effect :=
  if !authorized then (unauthorizedReply, [])
  else
    match getKey with
    | (_, some e) => (errorReply (some e), [])
    | (instanceKey, none) =>
      match regroupOp instanceKey with
      | (_, some e) => (errorReply (some e), [Effect.regroupSlavesCall instanceKey])
      | (res, none) =>
        let lostSlaves := res.lostSlaves ++ res.cannotReplicateSlaves
        (HttpReply.envelope
            ⟨OK, regroupMessage res.promotedSlave lostSlaves.length
              res.equalSlaves.length res.aheadSlaves.length,
              Details.key res.promotedSlave.key⟩,
          [Effect.regroupSlavesCall instanceKey])

/-- `HttpAPI.RegroupSlavesPseudoGTID` (api.go:876-897), with the same
`append(lostSlaves, cannotReplicateSlaves...)` at api.go:888. -/
def regroupSlavesPseudoGTIDHandler (authorized : Bool) (getKey : InstanceKey × Option String)
    (regroupOp : InstanceKey → RegroupResult × Option String) :
    HttpReply × List Effect :=
  if !authorized then (unauthorizedReply, [])
  else
    match getKey with
    | (_, some e) => (errorReply (some e), [])
    | (instanceKey, none) =>
      match regroupOp instanceKey with
      | (_, some e) => (errorReply (some e), [Effect.regroupSlavesPseudoGTIDCall instanceKey])
      | (res, none) =>
        let lostSlaves := res.lostSlaves ++ res.cannotReplicateSlaves
        (HttpReply.envelope
            ⟨OK, regroupMessage res.promotedSlave lostSlaves.length
              res.equalSlaves.length res.aheadSlaves.length,
              Details.key res.promotedSlave.key⟩,
          [Effect.regroupSlavesPseudoGTIDCall instanceKey])

/-- `HttpAPI.RegroupSlavesGTID` (api.go:900-921), with the same
`append(lostSlaves, cannotReplicateSlaves...)` at api.go:912. -/
def regroupSlavesGTIDHandler (authorized : Bool) (getKey : InstanceKey × Option String)
    (regroupOp : InstanceKey → RegroupGTIDResult × Option String) :
    HttpReply × List Effect :=
  if !authorized then (unauthorizedReply, [])
  else
    match getKey with
    | (_, some e) => (errorReply (some e), [])
    | (instanceKey, none) =>
      match regroupOp instanceKey with
      | (_, some e) => (errorReply (some e), [Effect.regroupSlavesGTIDCall instanceKey])
      | (res, none) =>
        let lostSlaves := res.lostSlaves ++ res.cannotReplicateSlaves
        (HttpReply.envelope
            ⟨OK, regroupGTIDMessage res.promotedSlave lostSlaves.length
              res.movedSlaves.length, Details.key res.promotedSlave.key⟩,
          [Effect.regroupSlavesGTIDCall instanceKey])

/-- `HttpAPI.KillQuery` (api.go:1164-1187).  The `err` of
`this.getInstanceKey` at api.go:1169 is immediately overwritten by the
`strconv.ParseInt` result at api.go:1170, before any check: only the
process-id parse error is ever examined (twice, api.go:1171 and 1176). -/
def killQueryHandler (authorized : Bool) (getKey : InstanceKey × Option String)
    (processParse : Int × Option String)
    (killQueryOp : InstanceKey → Int → Instance × Option String) :
    HttpReply × List Effect :=
  if !authorized then (unauthorizedReply, [])
  else
    match getKey, processParse with
    | (instanceKey, _hostPortErrOverwritten), (processId, err) =>
      match err with
      | some e => (errorReply (some e), [])
      | none =>
        match err with
        | some e => (errorReply (some e), [])
        | none =>
          match killQueryOp instanceKey processId with
          | (_, some e) =>
            (errorReply (some e), [Effect.killQueryCall instanceKey processId])
          | (ins, none) =>
            (HttpReply.envelope
                ⟨OK, "Query killed on : " ++ ins.key.displayString, Details.inst ins⟩,
              [Effect.killQueryCall instanceKey processId])

/-- The optional candidate hint of `Recover` (api.go:1942-1945): used only
when `candidateHost:candidatePort` parses. -/
def candidateOf (getCandidateKey : InstanceKey × Option String) : Option InstanceKey :=
  match getCandidateKey with
  | (key, none) => some key
  | (_, some _) => none

/-- The `skipProcesses` flag of `Recover` (api.go:1947). -/
def skipProcessesOf (querySkipProcesses paramSkipProcesses : String) : Bool :=
  querySkipProcesses == "true" || paramSkipProcesses == "true"

/-- `HttpAPI.Recover` (api.go:1932-1958).  `skipProcesses` is true iff the
query string carries `skipProcesses=true` or `params["skipProcesses"]` is
`"true"` (api.go:1947); the candidate key is used only when it parses
(api.go:1943-1945). -/
def recoverHandler (authorized : Bool)
    (getKey getCandidateKey : InstanceKey × Option String)
    (querySkipProcesses paramSkipProcesses : String)
    (checkAndRecover : InstanceKey → Option InstanceKey → Bool → Bool × Option String) :
    HttpReply × List Effect :=
  if !authorized then (unauthorizedReply, [])
  else
    match getKey with
    | (_, some e) => (errorReply (some e), [])
    | (instanceKey, none) =>
      let candidateKey : Option InstanceKey := candidateOf getCandidateKey
      let skipProcesses : Bool :=
        skipProcessesOf querySkipProcesses paramSkipProcesses
      match checkAndRecover instanceKey candidateKey skipProcesses with
      | (_, some e) =>
        (errorReply (some e),
          [Effect.checkAndRecoverCall instanceKey candidateKey skipProcesses])
      | (true, none) =>
        (HttpReply.envelope ⟨OK, "Action taken", Details.key instanceKey⟩,
          [Effect.checkAndRecoverCall instanceKey candidateKey skipProcesses])
      | (false, none) =>
        (HttpReply.envelope ⟨OK, "No action taken", Details.key instanceKey⟩,
          [Effect.checkAndRecoverCall instanceKey candidateKey skipProcesses])

/-- `HttpAPI.RecoverLite` (api.go:1926-1929): sets
`params["skipProcesses"] = "true"` and delegates to `Recover`. -/
def recoverLiteHandler (authorized : Bool)
    (getKey getCandidateKey : InstanceKey × Option String)
    (querySkipProcesses : String)
    (checkAndRecover : InstanceKey → Option InstanceKey → Bool → Bool × Option String) :
    HttpReply × List Effect :=
  recoverHandler authorized getKey getCandidateKey querySkipProcesses "true" checkAndRecover

/-- `HttpAPI.AgentSeedDetails` (api.go:1741-1760).  The seed-id parse error
at api.go:1751 is overwritten at api.go:1752 before being checked. -/
def agentSeedDetailsHandler (authorized serveAgentsHttp : Bool)
    (seedIdParse : Int × Option String)
    (seedDetailsOp : Int → Details × Option String) :
    HttpReply × List Effect :=
  if !authorized then (unauthorizedReply, [])
  else if !serveAgentsHttp then
    (HttpReply.envelope ⟨ERROR, "Agents not served", Details.noDetails⟩, [])
  else
    match seedIdParse with
    | (seedId, _parseErrOverwritten) =>
      match seedDetailsOp seedId with
      | (_, some e) => (errorReply (some e), [Effect.agentSeedDetailsCall seedId])
      | (output, none) => (HttpReply.structured output, [Effect.agentSeedDetailsCall seedId])

/-- `HttpAPI.AgentSeedStates` (api.go:1763-1782), same overwritten parse
error (api.go:1773-1774). -/
def agentSeedStatesHandler (authorized serveAgentsHttp : Bool)
    (seedIdParse : Int × Option String)
    (seedStatesOp : Int → Details × Option String) :
    HttpReply × List Effect :=
  if !authorized then (unauthorizedReply, [])
  else if !serveAgentsHttp then
    (HttpReply.envelope ⟨ERROR, "Agents not served", Details.noDetails⟩, [])
  else
    match seedIdParse with
    | (seedId, _parseErrOverwritten) =>
      match seedStatesOp seedId with
      | (_, some e) => (errorReply (some e), [Effect.readSeedStatesCall seedId])
      | (output, none) => (HttpReply.structured output, [Effect.readSeedStatesCall seedId])

/-- `HttpAPI.AbortSeed` (api.go:1806-1825), same overwritten parse error
(api.go:1816-1817); the success reply is the raw boolean `err == nil`. -/
def abortSeedHandler (authorized serveAgentsHttp : Bool)
    (seedIdParse : Int × Option String)
    (abortSeedOp : Int → Option String) :
    HttpReply × List Effect :=
  if !authorized then (unauthorizedReply, [])
  else if !serveAgentsHttp then
    (HttpReply.envelope ⟨ERROR, "Agents not served", Details.noDetails⟩, [])
  else
    match seedIdParse with
    | (seedId, _parseErrOverwritten) =>
      match abortSeedOp seedId with
      | some e => (errorReply (some e), [Effect.abortSeedCall seedId])
      | none => (HttpReply.structured (Details.boolVal true), [Effect.abortSeedCall seedId])

/-- `getUserId` fallback of the acknowledgement handlers
(api.go:2121-2124, 2152-2155, 2182-2185): the maintenance owner stands in
for an empty authenticated user id. -/
def effectiveUserId (authUserId maintenanceOwner : String) : String :=
  if authUserId = "" then maintenanceOwner else authUserId

/-- `HttpAPI.AcknowledgeRecovery` (api.go:2166-2193): recovery-id parse is
checked, then an empty `comment` query parameter is rejected before
`logic.AcknowledgeRecovery` is reached. -/
def acknowledgeRecoveryHandler (authorized : Bool)
    (recoveryIdParse : Int × Option String)
    (queryComment authUserId maintenanceOwner : String)
    (ackOp : Int → String → String → Int × Option String) :
    HttpReply × List Effect :=
  if !authorized then (unauthorizedReply, [])
  else
    match recoveryIdParse with
    | (_, some e) => (errorReply (some e), [])
    | (recoveryId, none) =>
      if queryComment = "" then
        (HttpReply.envelope ⟨ERROR, "No acknowledge comment given", Details.noDetails⟩, [])
      else
        let userId := effectiveUserId authUserId maintenanceOwner
        match ackOp recoveryId userId queryComment with
        | (_, some e) =>
          (errorReply (some e), [Effect.acknowledgeRecoveryCall recoveryId userId queryComment])
        | (cnt, none) =>
          (HttpReply.structured (Details.count cnt),
            [Effect.acknowledgeRecoveryCall recoveryId userId queryComment])

/-- `HttpAPI.AcknowledgeClusterRecoveries` (api.go:2100-2132): optional
alias resolution, then the same empty-comment rejection before
`logic.AcknowledgeClusterRecoveries`. -/
def acknowledgeClusterRecoveriesHandler (authorized : Bool)
    (paramClusterName paramClusterAlias : String)
    (aliasResolve : String → String × Option String)
    (queryComment authUserId maintenanceOwner : String)
    (ackOp : String → String → String → Int × Option String) :
    HttpReply × List Effect :=
  if !authorized then (unauthorizedReply, [])
  else
    let resolved : String × Option String :=
      if paramClusterAlias ≠ "" then aliasResolve paramClusterAlias
      else (paramClusterName, none)
    match resolved with
    | (_, some e) => (errorReply (some e), [])
    | (clusterName, none) =>
      if queryComment = "" then
        (HttpReply.envelope ⟨ERROR, "No acknowledge comment given", Details.noDetails⟩, [])
      else
        let userId := effectiveUserId authUserId maintenanceOwner
        match ackOp clusterName userId queryComment with
        | (_, some e) =>
          (errorReply (some e),
            [Effect.acknowledgeClusterRecoveriesCall clusterName userId queryComment])
        | (cnt, none) =>
          (HttpReply.structured (Details.count cnt),
            [Effect.acknowledgeClusterRecoveriesCall clusterName userId queryComment])

/-- `HttpAPI.AcknowledgeInstanceRecoveries` (api.go:2135-2163). -/
def acknowledgeInstanceRecoveriesHandler (authorized : Bool)
    (getKey : InstanceKey × Option String)
    (queryComment authUserId maintenanceOwner : String)
    (ackOp : InstanceKey → String → String → Int × Option String) :
    HttpReply × List Effect :=
  if !authorized then (unauthorizedReply, [])
  else
    match getKey with
    | (_, some e) => (errorReply (some e), [])
    | (instanceKey, none) =>
      if queryComment = "" then
        (HttpReply.envelope ⟨ERROR, "No acknowledge comment given", Details.noDetails⟩, [])
      else
        let userId := effectiveUserId authUserId maintenanceOwner
        match ackOp instanceKey userId queryComment with
        | (_, some e) =>
          (errorReply (some e),
            [Effect.acknowledgeInstanceRecoveriesCall instanceKey userId queryComment])
        | (cnt, none) =>
          (HttpReply.structured (Details.count cnt),
            [Effect.acknowledgeInstanceRecoveriesCall instanceKey userId queryComment])

/-- `HttpAPI.ActiveClusterRecovery` (api.go:2058-2067): read-only, no
authorization check, surfaces `logic.ReadActiveClusterRecovery` raw. -/
def activeClusterRecoveryHandler (clusterName : String)
    (readActive : String → List TopologyRecovery × Option String) :
    HttpReply × List Effect :=
  match readActive clusterName with
  | (_, some e) => (errorReply (some e), [Effect.readActiveClusterRecoveryCall clusterName])
  | (recoveries, none) =>
    (HttpReply.structured (Details.recoveries recoveries),
      [Effect.readActiveClusterRecoveryCall clusterName])

/-! ## Spec-modelled core operations

The engines the API dispatches to (`inst.RelocateBelow`, the regroup family
and the recovery bookkeeping in `logic`) live in repository packages that are
not part of the slice under scrutiny; they are modelled here from the words
of the specification. -/

/-- A topology snapshot: the stored instances (spec §3). -/
abbrev Topology := List Instance

/-- Store lookup of an instance by key. -/
def lookupInstance (topo : Topology) (k : InstanceKey) : Option Instance :=
  topo.find? (fun i => i.key == k)

/-- Re-point the stored upstream of `s` to `t` (the effect of a successful
`CHANGE REPLICATION SOURCE` on the stored snapshot). -/
def setUpstream (topo : Topology) (s t : InstanceKey) : Topology :=
  topo.map (fun i => if i.key == s then { i with upstreamKey := t } else i)

/-- Does following upstream pointers from `x` reach `target` within `fuel`
steps?  Fuel bounds traversal because co-primary pairs form two-cycles
(spec §9). -/
def reachesUpward (topo : Topology) (fuel : Nat) (x target : InstanceKey) : Bool :=
  match fuel with
  | 0 => false
  | Nat.succ f =>
    match lookupInstance topo x with
    | none => false
    | some i => i.upstreamKey == target || reachesUpward topo f i.upstreamKey target

/-- `s` is reachable via replication from `t`: `s`'s upstream chain passes
through `t`.  A chain longer than the instance count must have cycled, so
`|topo| + 1` steps of fuel are exhaustive. -/
def reachableViaReplication (topo : Topology) (t s : InstanceKey) : Bool :=
  reachesUpward topo (topo.length + 1) s t

/-- `x` is a descendant of `target` in the replication tree. -/
def isDescendant (topo : Topology) (x target : InstanceKey) : Bool :=
  reachesUpward topo (topo.length + 1) x target

/-- Modelled from the spec: `inst.RelocateBelow` (§4.E Relocation Planner) is
not under src (only its HTTP caller api.go:644-667 is).  Public contract:
re-parent `source` so that its new upstream is `target`, returning the
refreshed instance; preconditions: both present, `target ≠ source`, `target`
is not a descendant of `source`. -/
def RelocateBelow (topo : Topology) (s t : InstanceKey) :
    Except String (Topology × Instance) :=
  match lookupInstance topo s, lookupInstance topo t with
  | some _, some _ =>
    if s = t then Except.error "InvariantViolation: target equals source"
    else if isDescendant topo t s then
      Except.error "InvariantViolation: target is a descendant of source"
    else
      match lookupInstance (setUpstream topo s t) s with
      | some refreshed => Except.ok (setUpstream topo s t, refreshed)
      | none => Except.error "StoreError: source vanished during relocation"
  | _, _ => Except.error "Unreachable: source or target not found"

/-- Oracle adapter: expose the spec-modelled planner to the HTTP handler in
Go's `(value, err)` convention. -/
def relocateBelowViaPlanner (topo : Topology) (s t : InstanceKey) :
    Instance × Option String :=
  match RelocateBelow topo s t with
  | Except.ok (_, ins) => (ins, none)
  | Except.error e => (default, some e)

/-- Rank of spec §4.F step 3(a): `must > prefer > neutral > prefer_not`,
`must_not` excluded from election. -/
def promotionRuleRank : PromotionRule → Nat
  | PromotionRule.must => 4
  | PromotionRule.prefer => 3
  | PromotionRule.neutral => 2
  | PromotionRule.preferNot => 1
  | PromotionRule.mustNot => 0

/-- Is `a` a strictly better promotion candidate than `b` (spec §4.F step 3:
promotion rule, then most-advanced executed position, ties broken by
`ServerId` ascending)? -/
def betterCandidate (a b : Instance) : Bool :=
  if promotionRuleRank a.promotionRule ≠ promotionRuleRank b.promotionRule then
    promotionRuleRank b.promotionRule < promotionRuleRank a.promotionRule
  else if a.execPos ≠ b.execPos then b.execPos < a.execPos
  else a.serverId < b.serverId

/-- Elect the top candidate (spec §4.F step 4). -/
def chooseCandidate : List Instance → Option Instance
  | [] => none
  | x :: xs => some (xs.foldl (fun best i => if betterCandidate i best then i else best) x)

/-- The partition a regroup returns (spec §4.F step 6). -/
structure RegroupOutcome where
  promoted : Instance
  lost : List Instance
  equal : List Instance
  ahead : List Instance
  cannotReplicate : List Instance
deriving DecidableEq, Repr, Inhabited

/-- Modelled from the spec: the regroup engine `inst.RegroupSlaves` (§4.F) is
not under src (only its HTTP callers api.go:852-921 are).  Given the
refreshed replicas of the dead upstream: partition off the replication-
incompatible ones (`cannotReplicate`), elect the top compatible candidate
(excluding `must_not`), then split the remaining siblings into `ahead`
(position past the promoted candidate), `lost` (the planner cannot place
them) and `equal` (re-enslaved beneath the promoted candidate). -/
def Regroup (replicas : List Instance) : Except String RegroupOutcome :=
  let cannotReplicate := replicas.filter (fun i => !i.canReplicate)
  let capable := replicas.filter (fun i => i.canReplicate)
  let candidates := capable.filter (fun i => i.promotionRule ≠ PromotionRule.mustNot)
  match chooseCandidate candidates with
  | none => Except.error "no promotion candidate among replicas"
  | some c =>
    let siblings := capable.filter (fun i => i.key ≠ c.key)
    let ahead := siblings.filter (fun i => c.execPos < i.execPos)
    let rest := siblings.filter (fun i => !(decide (c.execPos < i.execPos)))
    let lost := rest.filter (fun i => !i.plannerCanPlace)
    let equal := rest.filter (fun i => i.plannerCanPlace)
    Except.ok ⟨c, lost, equal, ahead, cannotReplicate⟩

/-- The recovery audit table (spec §3, §4.H). -/
abbrev RecoveryStore := List TopologyRecovery

/-- The rows of a cluster whose `EndRecovery` is still NULL. -/
def activeRecoveries (store : RecoveryStore) (cluster : String) :
    List TopologyRecovery :=
  store.filter (fun tr => tr.clusterName == cluster && tr.endRecovery.isNone)

/-- Recovery exclusivity (spec §8 invariant 6): for any cluster, at most one
`TopologyRecovery` row has `EndRecovery = NULL`. -/
def atMostOneActivePerCluster (store : RecoveryStore) : Prop :=
  ∀ cluster, (activeRecoveries store cluster).length ≤ 1

/-- Modelled from the spec: opening a recovery (§4.H exclusivity) acquires
the cluster-scoped lock with compare-and-set semantics
(`INSERT ... WHERE NOT EXISTS`): the row is inserted only when the cluster
has no active recovery, otherwise the attempt fails. -/
def attemptRegisterRecovery (store : RecoveryStore) (newId : Nat)
    (cluster : String) : Option RecoveryStore :=
  if (activeRecoveries store cluster).isEmpty then
    some ({ id := newId, clusterName := cluster, endRecovery := none } :: store)
  else none

/-- Modelled from the spec: closing a recovery (§4.H) stamps `EndRecovery`
on the active row with the given id; the row survives as an audit record. -/
def resolveRecovery (store : RecoveryStore) (rid endTime : Nat)
    (success : Bool) : RecoveryStore :=
  store.map (fun tr =>
    if tr.id == rid && tr.endRecovery.isNone then
      { tr with endRecovery := some endTime, isSuccessful := success }
    else tr)

/-! ## Auxiliary predicates and concrete test fixtures -/

/-- The envelope contract of spec §6: a reply is either a raw structured
result, or an envelope whose code is one of the two declared constants. -/
def replyCodeOk : HttpReply → Bool
  | HttpReply.envelope e => e.Code == OK || e.Code == ERROR
  | HttpReply.structured _ => true

/-- Is the reply an ERROR envelope? -/
def isErrorEnvelope : HttpReply → Bool
  | HttpReply.envelope e => e.Code == ERROR
  | HttpReply.structured _ => false

/-- Dead upstream key for the concrete regroup example. -/
def exDeadKey : InstanceKey := ⟨"d", 3306⟩

/-- Concrete promoted replica for the regroup example. -/
def exPromoted : Instance := { key := ⟨"p", 3306⟩, upstreamKey := exDeadKey }

/-- Concrete replica the engine reports as lost. -/
def exLostOne : Instance := { key := ⟨"l", 3306⟩, upstreamKey := exDeadKey }

/-- Concrete replica the engine reports as unable to replicate. -/
def exCannotOne : Instance :=
  { key := ⟨"x", 3306⟩, upstreamKey := exDeadKey, canReplicate := false }

/-- A concrete engine result with one lost and one cannot-replicate replica. -/
def exRegroupResult : RegroupResult :=
  { lostSlaves := [exLostOne]
    equalSlaves := []
    aheadSlaves := []
    cannotReplicateSlaves := [exCannotOne]
    promotedSlave := exPromoted }

/-- Primary key of the concrete relocation example. -/
def wP : InstanceKey := ⟨"p", 3306⟩

/-- Source key of the concrete relocation example. -/
def wS : InstanceKey := ⟨"a", 3306⟩

/-- Target key of the concrete relocation example. -/
def wT : InstanceKey := ⟨"b", 3306⟩

/-- Two siblings below one primary. -/
def wTopo : Topology :=
  [{ key := wS, upstreamKey := wP }, { key := wT, upstreamKey := wP }]

/-- The topology after relocating `wS` below `wT`. -/
def wTopo2 : Topology :=
  [{ key := wS, upstreamKey := wT }, { key := wT, upstreamKey := wP }]

/-- The refreshed source instance after the concrete relocation. -/
def wIns : Instance := { key := wS, upstreamKey := wT }

/-- Concrete replicas of a dead upstream for the regroup partition example. -/
def wR1 : Instance := { key := ⟨"a", 3306⟩, upstreamKey := exDeadKey, execPos := 10, serverId := 1 }

/-- Most advanced replica: gets promoted. -/
def wR2 : Instance := { key := ⟨"b", 3306⟩, upstreamKey := exDeadKey, execPos := 12, serverId := 2 }

/-- Replica at the promoted position. -/
def wR3 : Instance := { key := ⟨"c", 3306⟩, upstreamKey := exDeadKey, execPos := 12, serverId := 3 }

/-- Replica the planner cannot place. -/
def wR4 : Instance :=
  { key := ⟨"d2", 3306⟩, upstreamKey := exDeadKey, execPos := 5, serverId := 4
    plannerCanPlace := false }

/-- Replica that cannot replicate from the candidate. -/
def wR5 : Instance :=
  { key := ⟨"e", 3306⟩, upstreamKey := exDeadKey, execPos := 7, serverId := 5
    canReplicate := false }

/-- The refreshed replica set of the dead upstream for the example. -/
def wReplicas : List Instance := [wR1, wR2, wR3, wR4, wR5]

/-- The partition the spec-modelled engine produces on `wReplicas`. -/
def wOutcome : RegroupOutcome :=
  { promoted := wR2
    lost := [wR4]
    equal := [wR1, wR3]
    ahead := []
    cannotReplicate := [wR5] }

/-! ## Theorems -/

/-- Claim C8: the Forget handler discards the `NewRawInstanceKey` error
(api.go:153) and dereferences the returned key pointer unconditionally, so
it replies OK (and forgets the instance) for every non-nil raw key; this is
panic-free only because the key must be non-nil — a nil raw key (an
unparsable `host:port` for which the constructor would return no key) runs
into the nil-pointer dereferences at `ForgetInstance` and in the response
message, modelled by the absent result. -/
theorem claim_C8 :
    (∀ k : InstanceKey, forgetHandler true (some k) =
      some (HttpReply.envelope
          ⟨OK, "Instance forgotten: " ++ k.displayString, Details.noDetails⟩,
        [Effect.forgetInstanceCall k])) ∧
    forgetHandler true none = none :=
  ⟨fun _ => rfl, rfl⟩

/-- Claim C10: for every embedded state-changing handler — covering the
discovery, maintenance, relocation, regroup, replication-control, recovery,
acknowledgement and agent-command categories, all of which share the
`isAuthorizedForAction` prelude in api.go — an unauthorized request yields
exactly the `{Code: ERROR, Message: "Unauthorized"}` envelope with no core
operation invoked; the read-only `Instance` handler (api.go:88-101) takes no
authorization input at all and performs its store read for every parsed key. -/
theorem claim_C10 :
    (∀ (gk : InstanceKey × Option String) (rti : InstanceKey → Instance × Option String),
      discoverHandler false gk rti = (unauthorizedReply, [])) ∧
    (∀ (rk : Option InstanceKey), forgetHandler false rk = some (unauthorizedReply, [])) ∧
    (∀ (gk : InstanceKey × Option String) (o rs : String)
        (bm : InstanceKey → String → String → Int × Option String),
      beginMaintenanceHandler false gk o rs bm = (unauthorizedReply, [])) ∧
    (∀ (gk : InstanceKey × Option String) (ss : InstanceKey → Instance × Option String),
      startSlaveHandler false gk ss = (unauthorizedReply, [])) ∧
    (∀ (gk gb : InstanceKey × Option String)
        (rb : InstanceKey → InstanceKey → Instance × Option String),
      relocateBelowHandler false gk gb rb = (unauthorizedReply, [])) ∧
    (∀ (gk : InstanceKey × Option String) (ro : InstanceKey → RegroupResult × Option String),
      regroupSlavesHandler false gk ro = (unauthorizedReply, [])) ∧
    (∀ (gk : InstanceKey × Option String) (ro : InstanceKey → RegroupResult × Option String),
      regroupSlavesPseudoGTIDHandler false gk ro = (unauthorizedReply, [])) ∧
    (∀ (gk : InstanceKey × Option String)
        (ro : InstanceKey → RegroupGTIDResult × Option String),
      regroupSlavesGTIDHandler false gk ro = (unauthorizedReply, [])) ∧
    (∀ (gk : InstanceKey × Option String) (pp : Int × Option String)
        (kq : InstanceKey → Int → Instance × Option String),
      killQueryHandler false gk pp kq = (unauthorizedReply, [])) ∧
    (∀ (gk gc : InstanceKey × Option String) (qs ps : String)
        (car : InstanceKey → Option InstanceKey → Bool → Bool × Option String),
      recoverHandler false gk gc qs ps car = (unauthorizedReply, [])) ∧
    (∀ (gk gc : InstanceKey × Option String) (qs : String)
        (car : InstanceKey → Option InstanceKey → Bool → Bool × Option String),
      recoverLiteHandler false gk gc qs car = (unauthorizedReply, [])) ∧
    (∀ (sa : Bool) (sp : Int × Option String) (sd : Int → Details × Option String),
      agentSeedDetailsHandler false sa sp sd = (unauthorizedReply, [])) ∧
    (∀ (sa : Bool) (sp : Int × Option String) (sd : Int → Details × Option String),
      agentSeedStatesHandler false sa sp sd = (unauthorizedReply, [])) ∧
    (∀ (sa : Bool) (sp : Int × Option String) (ab : Int → Option String),
      abortSeedHandler false sa sp ab = (unauthorizedReply, [])) ∧
    (∀ (rp : Int × Option String) (c u m : String)
        (ack : Int → String → String → Int × Option String),
      acknowledgeRecoveryHandler false rp c u m ack = (unauthorizedReply, [])) ∧
    (∀ (cn ca : String) (ar : String → String × Option String) (c u m : String)
        (ack : String → String → String → Int × Option String),
      acknowledgeClusterRecoveriesHandler false cn ca ar c u m ack =
        (unauthorizedReply, [])) ∧
    (∀ (gk : InstanceKey × Option String) (c u m : String)
        (ack : InstanceKey → String → String → Int × Option String),
      acknowledgeInstanceRecoveriesHandler false gk c u m ack = (unauthorizedReply, [])) ∧
    (∀ (k : InstanceKey) (ri : InstanceKey → Instance × Bool × Option String),
      (instanceHandler (k, none) ri).2 = [Effect.readInstanceCall k]) := by
  refine ⟨fun _ _ => rfl, fun _ => rfl, fun _ _ _ _ => rfl, fun _ _ => rfl,
    fun _ _ _ => rfl, fun _ _ => rfl, fun _ _ => rfl, fun _ _ => rfl,
    fun _ _ _ => rfl, fun _ _ _ _ _ => rfl, fun _ _ _ _ => rfl,
    fun _ _ _ => rfl, fun _ _ _ => rfl, fun _ _ _ => rfl,
    fun _ _ _ _ _ => rfl, fun _ _ _ _ _ _ _ => rfl, fun _ _ _ _ _ => rfl, ?_⟩
  intro k ri
  rcases h : ri k with ⟨ins, found, rerr⟩
  cases found <;> cases rerr <;> simp [instanceHandler, h]

/-- Claim C9: in KillQuery the host-port parse error is overwritten before
any check, so the handler behaves identically with or without it and still
invokes the kill with the accompanying key; in AgentSeedDetails,
AgentSeedStates and AbortSeed the seed-id parse error is likewise
overwritten, and the handler proceeds with the zero value `0` that
`strconv.ParseInt` yields for unparsable input. -/
theorem claim_C9 :
    (∀ (k : InstanceKey) (e : String) (pid : Int)
        (core : InstanceKey → Int → Instance × Option String),
      killQueryHandler true (k, some e) (pid, none) core =
        killQueryHandler true (k, none) (pid, none) core ∧
      (killQueryHandler true (k, some e) (pid, none) core).2 =
        [Effect.killQueryCall k pid]) ∧
    (∀ (e : String) (core : Int → Details × Option String),
      agentSeedDetailsHandler true true (0, some e) core =
        agentSeedDetailsHandler true true (0, none) core ∧
      (agentSeedDetailsHandler true true (0, some e) core).2 =
        [Effect.agentSeedDetailsCall 0]) ∧
    (∀ (e : String) (core : Int → Details × Option String),
      agentSeedStatesHandler true true (0, some e) core =
        agentSeedStatesHandler true true (0, none) core ∧
      (agentSeedStatesHandler true true (0, some e) core).2 =
        [Effect.readSeedStatesCall 0]) ∧
    (∀ (e : String) (core : Int → Option String),
      abortSeedHandler true true (0, some e) core =
        abortSeedHandler true true (0, none) core ∧
      (abortSeedHandler true true (0, some e) core).2 =
        [Effect.abortSeedCall 0]) := by
  refine ⟨?_, ?_, ?_, ?_⟩
  · intro k e pid core
    refine ⟨rfl, ?_⟩
    rcases h : core k pid with ⟨ins, err⟩
    cases err <;> simp [killQueryHandler, h]
  · intro e core
    refine ⟨rfl, ?_⟩
    rcases h : core 0 with ⟨d, err⟩
    cases err <;> simp [agentSeedDetailsHandler, h]
  · intro e core
    refine ⟨rfl, ?_⟩
    rcases h : core 0 with ⟨d, err⟩
    cases err <;> simp [agentSeedStatesHandler, h]
  · intro e core
    refine ⟨rfl, ?_⟩
    rcases h : core 0 with _ | e2 <;> simp [abortSeedHandler, h]

/-- Effect trace of an authorized `Recover` request whose key parses: exactly
one `CheckAndRecover` call, with the computed candidate and skip flag. -/
theorem recoverHandler_effects (k0 : InstanceKey)
    (gc : InstanceKey × Option String) (qs ps : String)
    (car : InstanceKey → Option InstanceKey → Bool → Bool × Option String) :
    (recoverHandler true (k0, none) gc qs ps car).2 =
      [Effect.checkAndRecoverCall k0 (candidateOf gc) (skipProcessesOf qs ps)] := by
  rcases h : car k0 (candidateOf gc) (skipProcessesOf qs ps) with ⟨att, err⟩
  cases att <;> cases err <;> simp [recoverHandler, h]

/-- Claim C4: a recovery is executed with `skipProcesses = true` passed to
`CheckAndRecover` iff the request came through the recover-lite entry point
(which forces `params["skipProcesses"] = "true"`) or carries the query
parameter `skipProcesses=true`; on the direct route (whose pattern has no
`skipProcesses` member, so the param is empty) the flag is otherwise false. -/
theorem claim_C4 (a : Bool) (gk gc : InstanceKey × Option String) (qs : String)
    (car : InstanceKey → Option InstanceKey → Bool → Bool × Option String) :
    (∀ k c skip, Effect.checkAndRecoverCall k c skip ∈ (recoverHandler a gk gc qs "" car).2 →
      (skip = true ↔ qs = "true")) ∧
    (∀ k c skip, Effect.checkAndRecoverCall k c skip ∈ (recoverLiteHandler a gk gc qs car).2 →
      skip = true) := by
  constructor
  · intro k c skip hmem
    cases a with
    | false => simp [recoverHandler] at hmem
    | true =>
      rcases gk with ⟨k0, e0⟩
      cases e0 with
      | some e => simp [recoverHandler] at hmem
      | none =>
        rw [recoverHandler_effects] at hmem
        simp only [List.mem_singleton, Effect.checkAndRecoverCall.injEq] at hmem
        rcases hmem with ⟨-, -, hskip⟩
        subst hskip
        simp [skipProcessesOf]
  · intro k c skip hmem
    cases a with
    | false => simp [recoverLiteHandler, recoverHandler] at hmem
    | true =>
      rcases gk with ⟨k0, e0⟩
      cases e0 with
      | some e => simp [recoverLiteHandler, recoverHandler] at hmem
      | none =>
        rw [recoverLiteHandler, recoverHandler_effects] at hmem
        simp only [List.mem_singleton, Effect.checkAndRecoverCall.injEq] at hmem
        rcases hmem with ⟨-, -, hskip⟩
        subst hskip
        simp [skipProcessesOf]

/-- Witness for claim C4 at a concrete authorized request. -/
theorem claim_C4_witness :
    ((true = true) ↔ ("true" : String) = "true") ∧ (true = true) := by
  have h := claim_C4 true (⟨"h", 3306⟩, none) (⟨"c", 3307⟩, none) "true"
    (fun _ _ _ => (true, none))
  exact ⟨h.1 ⟨"h", 3306⟩ (some ⟨"c", 3307⟩) true (by decide),
    h.2 ⟨"h", 3306⟩ (some ⟨"c", 3307⟩) true (by decide)⟩

/-- The Unauthorized envelope satisfies the code contract. -/
theorem replyCodeOk_unauthorized : replyCodeOk unauthorizedReply = true := rfl

/-- Error envelopes satisfy the code contract. -/
theorem replyCodeOk_errorReply (e : Option String) : replyCodeOk (errorReply e) = true := rfl

/-- OK envelopes satisfy the code contract. -/
theorem replyCodeOk_ok (m : String) (d : Details) :
    replyCodeOk (HttpReply.envelope ⟨OK, m, d⟩) = true := rfl

/-- ERROR envelopes satisfy the code contract. -/
theorem replyCodeOk_error (m : String) (d : Details) :
    replyCodeOk (HttpReply.envelope ⟨ERROR, m, d⟩) = true := rfl

/-- Raw structured replies satisfy the code contract trivially. -/
theorem replyCodeOk_structured (d : Details) :
    replyCodeOk (HttpReply.structured d) = true := rfl

/-- Claim C3: `APIResponseCode.String` maps the two constructed constants to
exactly "OK" and "ERROR", and every embedded endpoint handler replies, on
every input, with either a raw structured result or an envelope whose code
is one of the two constants the handlers construct — so every
operator-initiated operation yields a success/error envelope. -/
theorem claim_C3 :
    APIResponseCodeString OK = "OK" ∧
    APIResponseCodeString ERROR = "ERROR" ∧
    (∀ (gk : InstanceKey × Option String) (ri : InstanceKey → Instance × Bool × Option String),
      replyCodeOk (instanceHandler gk ri).1 = true) ∧
    (∀ (a : Bool) (gk : InstanceKey × Option String)
        (rti : InstanceKey → Instance × Option String),
      replyCodeOk (discoverHandler a gk rti).1 = true) ∧
    (∀ (a : Bool) (rk : Option InstanceKey),
      ((forgetHandler a rk).all fun pr => replyCodeOk pr.1) = true) ∧
    (∀ (a : Bool) (gk : InstanceKey × Option String) (o rs : String)
        (bm : InstanceKey → String → String → Int × Option String),
      replyCodeOk (beginMaintenanceHandler a gk o rs bm).1 = true) ∧
    (∀ (a : Bool) (gk : InstanceKey × Option String)
        (ss : InstanceKey → Instance × Option String),
      replyCodeOk (startSlaveHandler a gk ss).1 = true) ∧
    (∀ (a : Bool) (gk gb : InstanceKey × Option String)
        (rb : InstanceKey → InstanceKey → Instance × Option String),
      replyCodeOk (relocateBelowHandler a gk gb rb).1 = true) ∧
    (∀ (a : Bool) (gk : InstanceKey × Option String)
        (ro : InstanceKey → RegroupResult × Option String),
      replyCodeOk (regroupSlavesHandler a gk ro).1 = true) ∧
    (∀ (a : Bool) (gk : InstanceKey × Option String)
        (ro : InstanceKey → RegroupResult × Option String),
      replyCodeOk (regroupSlavesPseudoGTIDHandler a gk ro).1 = true) ∧
    (∀ (a : Bool) (gk : InstanceKey × Option String)
        (ro : InstanceKey → RegroupGTIDResult × Option String),
      replyCodeOk (regroupSlavesGTIDHandler a gk ro).1 = true) ∧
    (∀ (a : Bool) (gk : InstanceKey × Option String) (pp : Int × Option String)
        (kq : InstanceKey → Int → Instance × Option String),
      replyCodeOk (killQueryHandler a gk pp kq).1 = true) ∧
    (∀ (a : Bool) (gk gc : InstanceKey × Option String) (qs ps : String)
        (car : InstanceKey → Option InstanceKey → Bool → Bool × Option String),
      replyCodeOk (recoverHandler a gk gc qs ps car).1 = true) ∧
    (∀ (a sa : Bool) (sp : Int × Option String) (sd : Int → Details × Option String),
      replyCodeOk (agentSeedDetailsHandler a sa sp sd).1 = true) ∧
    (∀ (a sa : Bool) (sp : Int × Option String) (sd : Int → Details × Option String),
      replyCodeOk (agentSeedStatesHandler a sa sp sd).1 = true) ∧
    (∀ (a sa : Bool) (sp : Int × Option String) (ab : Int → Option String),
      replyCodeOk (abortSeedHandler a sa sp ab).1 = true) ∧
    (∀ (a : Bool) (rp : Int × Option String) (c u m : String)
        (ack : Int → String → String → Int × Option String),
      replyCodeOk (acknowledgeRecoveryHandler a rp c u m ack).1 = true) ∧
    (∀ (a : Bool) (cn ca : String) (ar : String → String × Option String) (c u m : String)
        (ack : String → String → String → Int × Option String),
      replyCodeOk (acknowledgeClusterRecoveriesHandler a cn ca ar c u m ack).1 = true) ∧
    (∀ (a : Bool) (gk : InstanceKey × Option String) (c u m : String)
        (ack : InstanceKey → String → String → Int × Option String),
      replyCodeOk (acknowledgeInstanceRecoveriesHandler a gk c u m ack).1 = true) ∧
    (∀ (cn : String) (ra : String → List TopologyRecovery × Option String),
      replyCodeOk (activeClusterRecoveryHandler cn ra).1 = true) := by
  refine ⟨rfl, rfl, ?_, ?_, ?_, ?_, ?_, ?_, ?_, ?_, ?_, ?_, ?_, ?_, ?_, ?_, ?_, ?_, ?_, ?_⟩
  · intro gk ri
    rcases gk with ⟨k0, e0⟩
    cases e0 with
    | some e => exact replyCodeOk_errorReply (some e)
    | none =>
      rcases h : ri k0 with ⟨ins, found, rerr⟩
      cases found <;> cases rerr <;>
        simp [instanceHandler, h, replyCodeOk_error, replyCodeOk_structured]
  · intro a gk rti
    cases a
    · exact replyCodeOk_unauthorized
    · rcases gk with ⟨k0, e0⟩
      cases e0 with
      | some e => exact replyCodeOk_errorReply (some e)
      | none =>
        rcases h : rti k0 with ⟨ins, rerr⟩
        cases rerr <;> simp [discoverHandler, h, replyCodeOk_errorReply, replyCodeOk_ok]
  · intro a rk
    cases a
    · rfl
    · cases rk <;> rfl
  · intro a gk o rs bm
    cases a
    · exact replyCodeOk_unauthorized
    · rcases gk with ⟨k0, e0⟩
      cases e0 with
      | some e => exact replyCodeOk_errorReply (some e)
      | none =>
        rcases h : bm k0 o rs with ⟨tok, merr⟩
        cases merr <;>
          simp [beginMaintenanceHandler, h, replyCodeOk_error, replyCodeOk_ok]
  · intro a gk ss
    cases a
    · exact replyCodeOk_unauthorized
    · rcases gk with ⟨k0, e0⟩
      cases e0 with
      | some e => exact replyCodeOk_errorReply (some e)
      | none =>
        rcases h : ss k0 with ⟨ins, rerr⟩
        cases rerr <;> simp [startSlaveHandler, h, replyCodeOk_errorReply, replyCodeOk_ok]
  · intro a gk gb rb
    cases a
    · exact replyCodeOk_unauthorized
    · rcases gk with ⟨k0, e0⟩
      cases e0 with
      | some e => exact replyCodeOk_errorReply (some e)
      | none =>
        rcases gb with ⟨b0, e1⟩
        cases e1 with
        | some e => simp [relocateBelowHandler, replyCodeOk_errorReply]
        | none =>
          rcases h : rb k0 b0 with ⟨ins, rerr⟩
          cases rerr <;>
            simp [relocateBelowHandler, h, replyCodeOk_errorReply, replyCodeOk_ok]
  · intro a gk ro
    cases a
    · exact replyCodeOk_unauthorized
    · rcases gk with ⟨k0, e0⟩
      cases e0 with
      | some e => exact replyCodeOk_errorReply (some e)
      | none =>
        rcases h : ro k0 with ⟨res, rerr⟩
        cases rerr <;>
          simp [regroupSlavesHandler, h, replyCodeOk_errorReply, replyCodeOk_ok]
  · intro a gk ro
    cases a
    · exact replyCodeOk_unauthorized
    · rcases gk with ⟨k0, e0⟩
      cases e0 with
      | some e => exact replyCodeOk_errorReply (some e)
      | none =>
        rcases h : ro k0 with ⟨res, rerr⟩
        cases rerr <;>
          simp [regroupSlavesPseudoGTIDHandler, h, replyCodeOk_errorReply, replyCodeOk_ok]
  · intro a gk ro
    cases a
    · exact replyCodeOk_unauthorized
    · rcases gk with ⟨k0, e0⟩
      cases e0 with
      | some e => exact replyCodeOk_errorReply (some e)
      | none =>
        rcases h : ro k0 with ⟨res, rerr⟩
        cases rerr <;>
          simp [regroupSlavesGTIDHandler, h, replyCodeOk_errorReply, replyCodeOk_ok]
  · intro a gk pp kq
    cases a
    · exact replyCodeOk_unauthorized
    · rcases gk with ⟨k0, e0⟩
      rcases pp with ⟨pid, perr⟩
      cases perr with
      | some e => simp [killQueryHandler, replyCodeOk_errorReply]
      | none =>
        rcases h : kq k0 pid with ⟨ins, kerr⟩
        cases kerr <;> simp [killQueryHandler, h, replyCodeOk_errorReply, replyCodeOk_ok]
  · intro a gk gc qs ps car
    cases a
    · exact replyCodeOk_unauthorized
    · rcases gk with ⟨k0, e0⟩
      cases e0 with
      | some e => exact replyCodeOk_errorReply (some e)
      | none =>
        rcases h : car k0 (candidateOf gc) (skipProcessesOf qs ps) with ⟨att, rerr⟩
        cases att <;> cases rerr <;>
          simp [recoverHandler, h, replyCodeOk_errorReply, replyCodeOk_ok]
  · intro a sa sp sd
    cases a
    · exact replyCodeOk_unauthorized
    · cases sa
      · exact replyCodeOk_error _ _
      · rcases sp with ⟨sid, serr⟩
        rcases h : sd sid with ⟨d, derr⟩
        cases derr <;>
          simp [agentSeedDetailsHandler, h, replyCodeOk_errorReply, replyCodeOk_structured]
  · intro a sa sp sd
    cases a
    · exact replyCodeOk_unauthorized
    · cases sa
      · exact replyCodeOk_error _ _
      · rcases sp with ⟨sid, serr⟩
        rcases h : sd sid with ⟨d, derr⟩
        cases derr <;>
          simp [agentSeedStatesHandler, h, replyCodeOk_errorReply, replyCodeOk_structured]
  · intro a sa sp ab
    cases a
    · exact replyCodeOk_unauthorized
    · cases sa
      · exact replyCodeOk_error _ _
      · rcases sp with ⟨sid, serr⟩
        rcases h : ab sid with _ | e2 <;>
          simp [abortSeedHandler, h, replyCodeOk_errorReply, replyCodeOk_structured]
  · intro a rp c u m ack
    cases a
    · exact replyCodeOk_unauthorized
    · rcases rp with ⟨rid, perr⟩
      cases perr with
      | some e => exact replyCodeOk_errorReply (some e)
      | none =>
        by_cases hc : c = ""
        · simp [acknowledgeRecoveryHandler, hc, replyCodeOk_error]
        · rcases h : ack rid (effectiveUserId u m) c with ⟨cnt, aerr⟩
          cases aerr <;>
            simp [acknowledgeRecoveryHandler, hc, h, replyCodeOk_errorReply,
              replyCodeOk_structured]
  · intro a cn ca ar c u m ack
    cases a
    · exact replyCodeOk_unauthorized
    · rcases h : (if ca ≠ "" then ar ca else (cn, none)) with ⟨cname, cerr⟩
      cases cerr with
      | some e =>
        simp [acknowledgeClusterRecoveriesHandler, h, replyCodeOk_errorReply]
      | none =>
        by_cases hc : c = ""
        · simp [acknowledgeClusterRecoveriesHandler, h, hc, replyCodeOk_error]
        · rcases h2 : ack cname (effectiveUserId u m) c with ⟨cnt, aerr⟩
          cases aerr <;>
            simp [acknowledgeClusterRecoveriesHandler, h, hc, h2,
              replyCodeOk_errorReply, replyCodeOk_structured]
  · intro a gk c u m ack
    cases a
    · exact replyCodeOk_unauthorized
    · rcases gk with ⟨k0, e0⟩
      cases e0 with
      | some e => exact replyCodeOk_errorReply (some e)
      | none =>
        by_cases hc : c = ""
        · simp [acknowledgeInstanceRecoveriesHandler, hc, replyCodeOk_error]
        · rcases h : ack k0 (effectiveUserId u m) c with ⟨cnt, aerr⟩
          cases aerr <;>
            simp [acknowledgeInstanceRecoveriesHandler, hc, h, replyCodeOk_errorReply,
              replyCodeOk_structured]
  · intro cn ra
    rcases h : ra cn with ⟨rs, rerr⟩
    cases rerr <;>
      simp [activeClusterRecoveryHandler, h, replyCodeOk_errorReply, replyCodeOk_structured]

/-- Claim C5: on each of the three acknowledgement endpoints an empty
`comment` query parameter yields an ERROR envelope with no acknowledgement
call made, and whenever an acknowledgement call is made its comment is the
(non-empty) query comment and its user id is the authenticated user id with
the maintenance-owner fallback. -/
theorem claim_C5 :
    (∀ (a : Bool) (rp : Int × Option String) (u m : String)
        (ack : Int → String → String → Int × Option String),
      isErrorEnvelope (acknowledgeRecoveryHandler a rp "" u m ack).1 = true ∧
      (acknowledgeRecoveryHandler a rp "" u m ack).2 = []) ∧
    (∀ (a : Bool) (rp : Int × Option String) (c u m : String)
        (ack : Int → String → String → Int × Option String) (rid : Int) (uid cmt : String),
      Effect.acknowledgeRecoveryCall rid uid cmt ∈
          (acknowledgeRecoveryHandler a rp c u m ack).2 →
      cmt = c ∧ c ≠ "" ∧ uid = effectiveUserId u m) ∧
    (∀ (a : Bool) (cn ca : String) (ar : String → String × Option String) (u m : String)
        (ack : String → String → String → Int × Option String),
      isErrorEnvelope (acknowledgeClusterRecoveriesHandler a cn ca ar "" u m ack).1 = true ∧
      (acknowledgeClusterRecoveriesHandler a cn ca ar "" u m ack).2 = []) ∧
    (∀ (a : Bool) (cn ca : String) (ar : String → String × Option String) (c u m : String)
        (ack : String → String → String → Int × Option String) (cname uid cmt : String),
      Effect.acknowledgeClusterRecoveriesCall cname uid cmt ∈
          (acknowledgeClusterRecoveriesHandler a cn ca ar c u m ack).2 →
      cmt = c ∧ c ≠ "" ∧ uid = effectiveUserId u m) ∧
    (∀ (a : Bool) (gk : InstanceKey × Option String) (u m : String)
        (ack : InstanceKey → String → String → Int × Option String),
      isErrorEnvelope (acknowledgeInstanceRecoveriesHandler a gk "" u m ack).1 = true ∧
      (acknowledgeInstanceRecoveriesHandler a gk "" u m ack).2 = []) ∧
    (∀ (a : Bool) (gk : InstanceKey × Option String) (c u m : String)
        (ack : InstanceKey → String → String → Int × Option String)
        (ik : InstanceKey) (uid cmt : String),
      Effect.acknowledgeInstanceRecoveriesCall ik uid cmt ∈
          (acknowledgeInstanceRecoveriesHandler a gk c u m ack).2 →
      cmt = c ∧ c ≠ "" ∧ uid = effectiveUserId u m) := by
  refine ⟨?_, ?_, ?_, ?_, ?_, ?_⟩
  · intro a rp u m ack
    cases a
    · exact ⟨rfl, rfl⟩
    · rcases rp with ⟨rid, perr⟩
      cases perr <;> exact ⟨rfl, rfl⟩
  · intro a rp c u m ack rid uid cmt hmem
    cases a with
    | false => simp [acknowledgeRecoveryHandler] at hmem
    | true =>
      rcases rp with ⟨rid0, perr⟩
      cases perr with
      | some e => simp [acknowledgeRecoveryHandler] at hmem
      | none =>
        by_cases hc : c = ""
        · simp [acknowledgeRecoveryHandler, hc] at hmem
        · rcases h : ack rid0 (effectiveUserId u m) c with ⟨cnt, aerr⟩
          cases aerr <;>
            · simp [acknowledgeRecoveryHandler, hc, h] at hmem
              exact ⟨hmem.2.2, hc, hmem.2.1⟩
  · intro a cn ca ar u m ack
    cases a
    · exact ⟨rfl, rfl⟩
    · rcases h : (if ca ≠ "" then ar ca else (cn, none)) with ⟨cname, cerr⟩
      cases cerr <;>
        · constructor
          · simp [acknowledgeClusterRecoveriesHandler, h, isErrorEnvelope, errorReply]
          · simp [acknowledgeClusterRecoveriesHandler, h]
  · intro a cn ca ar c u m ack cname uid cmt hmem
    cases a with
    | false => simp [acknowledgeClusterRecoveriesHandler] at hmem
    | true =>
      rcases h : (if ca ≠ "" then ar ca else (cn, none)) with ⟨cname0, cerr⟩
      cases cerr with
      | some e => simp [acknowledgeClusterRecoveriesHandler, h] at hmem
      | none =>
        by_cases hc : c = ""
        · simp [acknowledgeClusterRecoveriesHandler, h, hc] at hmem
        · rcases h2 : ack cname0 (effectiveUserId u m) c with ⟨cnt, aerr⟩
          cases aerr <;>
            · simp [acknowledgeClusterRecoveriesHandler, h, hc, h2] at hmem
              exact ⟨hmem.2.2, hc, hmem.2.1⟩
  · intro a gk u m ack
    cases a
    · exact ⟨rfl, rfl⟩
    · rcases gk with ⟨k0, e0⟩
      cases e0 <;> exact ⟨rfl, rfl⟩
  · intro a gk c u m ack ik uid cmt hmem
    cases a with
    | false => simp [acknowledgeInstanceRecoveriesHandler] at hmem
    | true =>
      rcases gk with ⟨k0, e0⟩
      cases e0 with
      | some e => simp [acknowledgeInstanceRecoveriesHandler] at hmem
      | none =>
        by_cases hc : c = ""
        · simp [acknowledgeInstanceRecoveriesHandler, hc] at hmem
        · rcases h : ack k0 (effectiveUserId u m) c with ⟨cnt, aerr⟩
          cases aerr <;>
            · simp [acknowledgeInstanceRecoveriesHandler, hc, h] at hmem
              exact ⟨hmem.2.2, hc, hmem.2.1⟩

/-- Witness for claim C5 at concrete acknowledged and rejected requests. -/
theorem claim_C5_witness :
    (isErrorEnvelope (acknowledgeRecoveryHandler true (7, none) "" "u" "mo"
        (fun _ _ _ => (1, none))).1 = true ∧
      (acknowledgeRecoveryHandler true (7, none) "" "u" "mo"
        (fun _ _ _ => (1, none))).2 = []) ∧
    ("done" = "done" ∧ ("done" : String) ≠ "" ∧ "mo" = effectiveUserId "" "mo") :=
  ⟨claim_C5.1 true (7, none) "u" "mo" (fun _ _ _ => (1, none)),
    claim_C5.2.1 true (7, none) "done" "" "mo" (fun _ _ _ => (1, none)) 7 "mo" "done"
      (by decide)⟩

/-- Claim C1 counterexample: the RegroupSlaves endpoint does not surface the
engine's `lost` and `cannotReplicate` buckets separately.  With a concrete
engine result of one lost and one cannot-replicate replica, the response
merges them (api.go:864) and reports `lost: 2` — a different response from
the unmerged `lost: 1` the claim requires, and no field of the reply carries
the cannotReplicate bucket. -/
theorem claim_C1_counterexample :
    (regroupSlavesHandler true (exDeadKey, none) (fun _ => (exRegroupResult, none))).1 =
      HttpReply.envelope
        ⟨OK, regroupMessage exPromoted 2 0 0, Details.key exPromoted.key⟩ ∧
    exRegroupResult.lostSlaves.length = 1 ∧
    exRegroupResult.cannotReplicateSlaves.length = 1 ∧
    regroupMessage exPromoted 2 0 0 ≠ regroupMessage exPromoted 1 0 0 := by
  refine ⟨rfl, rfl, rfl, ?_⟩
  decide

/-- Claim C1 (amended): each regroup endpoint appends the cannotReplicate
bucket to the lost bucket before responding: on engine success the reported
lost figure equals `|lost| + |cannotReplicate|`, the `Details` carry only the
promoted key, and the cannotReplicate bucket is not surfaced separately. -/
theorem claim_C1_amended (k : InstanceKey) (res : RegroupResult)
    (resG : RegroupGTIDResult) :
    (regroupSlavesHandler true (k, none) (fun _ => (res, none))).1 =
      HttpReply.envelope
        ⟨OK, regroupMessage res.promotedSlave
            (res.lostSlaves.length + res.cannotReplicateSlaves.length)
            res.equalSlaves.length res.aheadSlaves.length,
          Details.key res.promotedSlave.key⟩ ∧
    (regroupSlavesPseudoGTIDHandler true (k, none) (fun _ => (res, none))).1 =
      HttpReply.envelope
        ⟨OK, regroupMessage res.promotedSlave
            (res.lostSlaves.length + res.cannotReplicateSlaves.length)
            res.equalSlaves.length res.aheadSlaves.length,
          Details.key res.promotedSlave.key⟩ ∧
    (regroupSlavesGTIDHandler true (k, none) (fun _ => (resG, none))).1 =
      HttpReply.envelope
        ⟨OK, regroupGTIDMessage resG.promotedSlave
            (resG.lostSlaves.length + resG.cannotReplicateSlaves.length)
            resG.movedSlaves.length,
          Details.key resG.promotedSlave.key⟩ := by
  refine ⟨?_, ?_, ?_⟩ <;>
    simp [regroupSlavesHandler, regroupSlavesPseudoGTIDHandler,
      regroupSlavesGTIDHandler, List.length_append]

/-- A found instance carries the key it was looked up by. -/
theorem lookupInstance_key (topo : Topology) (k : InstanceKey) (i : Instance)
    (h : lookupInstance topo k = some i) : i.key = k := by
  have h2 := List.find?_some h
  simpa using h2

/-- Looking the source up after `setUpstream` returns it with the new
upstream pointer. -/
theorem lookupInstance_setUpstream_self (topo : Topology) (s t : InstanceKey) :
    lookupInstance (setUpstream topo s t) s =
      (lookupInstance topo s).map (fun i => { i with upstreamKey := t }) := by
  unfold lookupInstance setUpstream
  rw [List.find?_map]
  have hpred : ((fun (i : Instance) => i.key == s) ∘
      fun (i : Instance) => if i.key == s then { i with upstreamKey := t } else i) =
        fun (i : Instance) => i.key == s := by
    funext i
    by_cases h : i.key = s <;> simp [h]
  rw [hpred]
  rcases hf : topo.find? (fun i => i.key == s) with _ | i0
  · rw [hf]
    rfl
  · rw [hf]
    have hkey : i0.key = s := by simpa using List.find?_some hf
    show some (if i0.key == s then { i0 with upstreamKey := t } else i0) =
      some { i0 with upstreamKey := t }
    simp [hkey]

/-- Claim C2: every successful relocation leaves the source's stored
upstream equal to the target's key, makes the source reachable via
replication from the target, and the RelocateBelow endpoint surfaces the
refreshed source instance as the Details of its OK envelope.
Spec-modelled: `inst.RelocateBelow` itself is outside the source slice. -/
theorem claim_C2 (topo topo2 : Topology) (s t : InstanceKey) (ins : Instance)
    (h : RelocateBelow topo s t = Except.ok (topo2, ins)) :
    (lookupInstance topo2 s).map Instance.upstreamKey = some t ∧
    ins.key = s ∧ ins.upstreamKey = t ∧
    reachableViaReplication topo2 t s = true ∧
    (relocateBelowHandler true (s, none) (t, none) (relocateBelowViaPlanner topo)).1 =
      HttpReply.envelope
        ⟨OK, "Instance " ++ s.displayString ++ " relocated below " ++ t.displayString,
          Details.inst ins⟩ := by
  have h0 := h
  unfold RelocateBelow at h
  split at h
  case h_2 => exact absurd h (by simp)
  case h_1 hs ht =>
    split at h
    · exact absurd h (by simp)
    · split at h
      · exact absurd h (by simp)
      · split at h
        case h_2 => exact absurd h (by simp)
        case h_1 refreshed heq =>
          rcases h with ⟨⟩
          have hup := lookupInstance_setUpstream_self topo s t
          rw [heq] at hup
          have hkey : ins.key = s := lookupInstance_key _ _ _ heq
          have hupstream : ins.upstreamKey = t := by
            rcases h1 : lookupInstance topo s with _ | i0
            · rw [h1] at hup
              simp at hup
            · rw [h1] at hup
              simp at hup
              rw [hup]
          refine ⟨?_, hkey, hupstream, ?_, ?_⟩
          · rw [heq]
            simp [hupstream]
          · unfold reachableViaReplication reachesUpward
            rw [heq]
            simp [hupstream]
          · have hplanner : relocateBelowViaPlanner topo s t = (ins, none) := by
              unfold relocateBelowViaPlanner
              rw [h0]
            simp [relocateBelowHandler, hplanner]

/-- Witness for claim C2 at a concrete two-sibling topology. -/
theorem claim_C2_witness :
    (lookupInstance wTopo2 wS).map Instance.upstreamKey = some wT ∧
    wIns.key = wS ∧ wIns.upstreamKey = wT ∧
    reachableViaReplication wTopo2 wT wS = true ∧
    (relocateBelowHandler true (wS, none) (wT, none) (relocateBelowViaPlanner wTopo)).1 =
      HttpReply.envelope
        ⟨OK, "Instance " ++ wS.displayString ++ " relocated below " ++ wT.displayString,
          Details.inst wIns⟩ :=
  claim_C2 wTopo wTopo2 wS wT wIns rfl

/-- The fold electing the best candidate returns the seed or a list member. -/
theorem foldl_best_mem (xs : List Instance) (x : Instance) :
    xs.foldl (fun best i => if betterCandidate i best then i else best) x = x ∨
      xs.foldl (fun best i => if betterCandidate i best then i else best) x ∈ xs := by
  induction xs generalizing x with
  | nil => exact Or.inl rfl
  | cons a l ih =>
    rw [List.foldl_cons]
    rcases ih (if betterCandidate a x then a else x) with h | h
    · rw [h]
      by_cases hb : betterCandidate a x
      · rw [if_pos hb]
        exact Or.inr (List.mem_cons_self a l)
      · rw [if_neg hb]
        exact Or.inl rfl
    · exact Or.inr (List.mem_cons_of_mem a h)

/-- The elected candidate is one of the candidates. -/
theorem chooseCandidate_mem (l : List Instance) (c : Instance)
    (h : chooseCandidate l = some c) : c ∈ l := by
  cases l with
  | nil => simp [chooseCandidate] at h
  | cons x xs =>
    simp only [chooseCandidate, Option.some.injEq] at h
    rcases foldl_best_mem xs x with h2 | h2
    · rw [h] at h2
      rw [h2]
      exact List.mem_cons_self x xs
    · rw [h] at h2
      exact List.mem_cons_of_mem x h2

/-- Claim C6: the regroup partition is exact — the promoted key is in none of
the `lost`, `ahead` or `cannotReplicate` buckets, and the promoted key
together with the four buckets covers exactly the keys of the refreshed
replica set of the dead upstream.  Spec-modelled: the regroup engine itself
is outside the source slice. -/
theorem claim_C6 (replicas : List Instance) (out : RegroupOutcome)
    (hok : Regroup replicas = Except.ok out)
    (hnd : (replicas.map Instance.key).Nodup) :
    out.promoted.key ∉ (out.lost ++ out.ahead ++ out.cannotReplicate).map Instance.key ∧
    (∀ k, k ∈ replicas.map Instance.key ↔
      (k = out.promoted.key ∨
        k ∈ (out.lost ++ out.equal ++ out.ahead ++ out.cannotReplicate).map
          Instance.key)) := by
  unfold Regroup at hok
  dsimp only at hok
  split at hok
  case h_1 => exact absurd hok (by simp)
  case h_2 c hch =>
    rcases hok with ⟨⟩
    have hcmem : c ∈ (replicas.filter (fun i => i.canReplicate)).filter
        (fun i => i.promotionRule ≠ PromotionRule.mustNot) := chooseCandidate_mem _ _ hch
    have hccap : c ∈ replicas.filter (fun i => i.canReplicate) :=
      List.mem_of_mem_filter hcmem
    have hcrep : c ∈ replicas := List.mem_of_mem_filter hccap
    have hccan : c.canReplicate = true := by
      have := List.of_mem_filter hccap
      simpa using this
    constructor
    · intro hmem
      simp only [List.map_append, List.mem_append, List.mem_map] at hmem
      rcases hmem with (⟨x, hx, hxk⟩ | ⟨x, hx, hxk⟩) | ⟨x, hx, hxk⟩
      · have hxs := List.mem_of_mem_filter (List.mem_of_mem_filter hx)
        have hne := List.of_mem_filter hxs
        simp only [decide_eq_true_eq] at hne
        exact hne hxk
      · have hxs := List.mem_of_mem_filter hx
        have hne := List.of_mem_filter hxs
        simp only [decide_eq_true_eq] at hne
        exact hne hxk
      · have hxrep : x ∈ replicas := List.mem_of_mem_filter hx
        have hxcan := List.of_mem_filter hx
        simp only [Bool.not_eq_true'] at hxcan
        have hxc : x = c :=
          List.inj_on_of_nodup_map hnd hxrep hcrep hxk
        rw [hxc] at hxcan
        rw [hccan] at hxcan
        exact absurd hxcan (by simp)
    · intro k
      constructor
      · intro hk
        simp only [List.mem_map] at hk
        rcases hk with ⟨x, hxrep, hxk⟩
        by_cases hxcan : x.canReplicate = true
        · by_cases hxc : x.key = c.key
          · exact Or.inl (by rw [← hxk, hxc])
          · have hxsib : x ∈ (replicas.filter (fun i => i.canReplicate)).filter
                (fun i => decide (i.key ≠ c.key)) := by
              refine List.mem_filter.mpr ⟨List.mem_filter.mpr ⟨hxrep, by simp [hxcan]⟩, ?_⟩
              simp [hxc]
            refine Or.inr ?_
            simp only [List.map_append, List.mem_append, List.mem_map]
            by_cases hahead : c.execPos < x.execPos
            · refine Or.inl (Or.inr ⟨x, ?_, hxk⟩)
              exact List.mem_filter.mpr ⟨hxsib, by simp [hahead]⟩
            · have hxrest : x ∈ ((replicas.filter (fun i => i.canReplicate)).filter
                  (fun i => decide (i.key ≠ c.key))).filter
                    (fun i => !(decide (c.execPos < i.execPos))) :=
                List.mem_filter.mpr ⟨hxsib, by simp [hahead]⟩
              by_cases hplace : x.plannerCanPlace = true
              · refine Or.inl (Or.inl (Or.inr ⟨x, ?_, hxk⟩))
                exact List.mem_filter.mpr ⟨hxrest, by simp [hplace]⟩
              · refine Or.inl (Or.inl (Or.inl ⟨x, ?_, hxk⟩))
                exact List.mem_filter.mpr ⟨hxrest, by simp [hplace]⟩
        · refine Or.inr ?_
          simp only [List.map_append, List.mem_append, List.mem_map]
          refine Or.inr ⟨x, ?_, hxk⟩
          exact List.mem_filter.mpr ⟨hxrep, by simp [hxcan]⟩
      · intro hk
        rcases hk with hk | hk
        · rw [hk]
          exact List.mem_map.mpr ⟨c, hcrep, rfl⟩
        · simp only [List.map_append, List.mem_append, List.mem_map] at hk
          rcases hk with ((⟨x, hx, hxk⟩ | ⟨x, hx, hxk⟩) | ⟨x, hx, hxk⟩) | ⟨x, hx, hxk⟩
          · exact List.mem_map.mpr ⟨x, List.mem_of_mem_filter (List.mem_of_mem_filter
              (List.mem_of_mem_filter (List.mem_of_mem_filter hx))), hxk⟩
          · exact List.mem_map.mpr ⟨x, List.mem_of_mem_filter (List.mem_of_mem_filter
              (List.mem_of_mem_filter (List.mem_of_mem_filter hx))), hxk⟩
          · exact List.mem_map.mpr ⟨x, List.mem_of_mem_filter (List.mem_of_mem_filter
              (List.mem_of_mem_filter hx)), hxk⟩
          · exact List.mem_map.mpr ⟨x, List.mem_of_mem_filter hx, hxk⟩

/-- Witness for claim C6 on a concrete five-replica set, checking the
partition at the key of the cannot-replicate member. -/
theorem claim_C6_witness :
    wOutcome.promoted.key ∉
      (wOutcome.lost ++ wOutcome.ahead ++ wOutcome.cannotReplicate).map Instance.key ∧
    ((⟨"e", 3306⟩ : InstanceKey) ∈ wReplicas.map Instance.key ↔
      ((⟨"e", 3306⟩ : InstanceKey) = wOutcome.promoted.key ∨
        (⟨"e", 3306⟩ : InstanceKey) ∈
          (wOutcome.lost ++ wOutcome.equal ++ wOutcome.ahead ++
            wOutcome.cannotReplicate).map Instance.key)) :=
  ⟨(claim_C6 wReplicas wOutcome rfl (by decide)).1,
    (claim_C6 wReplicas wOutcome rfl (by decide)).2 ⟨"e", 3306⟩⟩

/-- Mapping a row transformer that never activates a row cannot increase the
number of rows passing a filter. -/
theorem filter_map_length_le (p : TopologyRecovery → Bool)
    (f : TopologyRecovery → TopologyRecovery)
    (hf : ∀ x, p (f x) = true → p x = true) (l : List TopologyRecovery) :
    ((l.map f).filter p).length ≤ (l.filter p).length := by
  induction l with
  | nil => simp
  | cons a l ih =>
    simp only [List.map_cons, List.filter_cons]
    by_cases h1 : p (f a) = true
    · have h2 := hf a h1
      rw [if_pos h1, if_pos h2]
      exact Nat.succ_le_succ ih
    · rw [if_neg h1]
      by_cases h2 : p a = true
      · rw [if_pos h2]
        exact Nat.le_succ_of_le ih
      · rw [if_neg h2]
        exact ih

/-- Claim C7: at most one `TopologyRecovery` row per cluster has
`EndRecovery = NULL` — the invariant is preserved by the compare-and-set
registration and by recovery resolution, and under it the
ActiveClusterRecovery endpoint surfaces a list of at most one active row.
Spec-modelled: the recovery bookkeeping in `logic` is outside the source
slice. -/
theorem claim_C7 (store : RecoveryStore) (hInv : atMostOneActivePerCluster store) :
    (∀ (newId : Nat) (cluster : String) (store2 : RecoveryStore),
      attemptRegisterRecovery store newId cluster = some store2 →
      atMostOneActivePerCluster store2) ∧
    (∀ (rid endTime : Nat) (success : Bool),
      atMostOneActivePerCluster (resolveRecovery store rid endTime success)) ∧
    (∀ c, (activeClusterRecoveryHandler c (fun cn => (activeRecoveries store cn, none))).1 =
        HttpReply.structured (Details.recoveries (activeRecoveries store c)) ∧
      (activeRecoveries store c).length ≤ 1) := by
  refine ⟨?_, ?_, ?_⟩
  · intro newId cluster store2 hreg
    unfold attemptRegisterRecovery at hreg
    by_cases hemp : (activeRecoveries store cluster).isEmpty = true
    · rw [if_pos hemp] at hreg
      rcases hreg with ⟨⟩
      intro c
      have hnil : activeRecoveries store cluster = [] := by
        simpa using hemp
      unfold activeRecoveries at hnil ⊢
      rw [List.filter_cons]
      by_cases hcc : (cluster == c && (Option.isNone (none : Option Nat))) = true
      · rw [if_pos hcc]
        have hceq : cluster = c := by simpa using hcc
        rw [← hceq, hnil]
        simp
      · rw [if_neg (by simp_all)]
        exact hInv c
    · rw [if_neg hemp] at hreg
      exact absurd hreg (by simp)
  · intro rid endTime success c
    have hle : (activeRecoveries (resolveRecovery store rid endTime success) c).length ≤
        (activeRecoveries store c).length := by
      unfold activeRecoveries resolveRecovery
      refine filter_map_length_le _ _ ?_ store
      intro x hx
      by_cases hcond : (x.id == rid && x.endRecovery.isNone) = true
      · rw [if_pos hcond] at hx
        simp at hx
      · rw [if_neg hcond] at hx
        exact hx
    exact Nat.le_trans hle (hInv c)
  · intro c
    exact ⟨rfl, hInv c⟩

/-- Witness for claim C7: registering on an empty store and resolving on it. -/
theorem claim_C7_witness :
    atMostOneActivePerCluster
      [({ id := 1, clusterName := "c1", endRecovery := none } : TopologyRecovery)] ∧
    atMostOneActivePerCluster (resolveRecovery [] 1 5 true) ∧
    ((activeClusterRecoveryHandler "c1" (fun cn => (activeRecoveries [] cn, none))).1 =
      HttpReply.structured (Details.recoveries (activeRecoveries [] "c1")) ∧
      (activeRecoveries ([] : RecoveryStore) "c1").length ≤ 1) := by
  have hInv : atMostOneActivePerCluster ([] : RecoveryStore) := by
    intro c
    simp [activeRecoveries]
  have h := claim_C7 [] hInv
  exact ⟨h.1 1 "c1" _ rfl, h.2.1 1 5 true, h.2.2 "c1"⟩

end Orchestrator
